import Mathlib

/-
Verification of the filament-profile generator (profile_generator.py).

Shallow embedding conventions:
* Python ints are ℤ, Python floats are ℚ (the arithmetic the claims touch is
  exact in binary floating point at the relevant magnitudes, so the rational
  idealization is faithful there).
* `int(x)` applied to a float is truncation toward zero, modelled by `pyInt`.
* The network transport of the LLM call (`call_ollama`) is out of scope per
  the spec; `ollama_generate_material` takes the reconstructed response text
  and the outcome of `json.loads` on it as explicit parameters.
-/

/-- Mirror of the `MaterialPreset` dataclass: ints as ℤ, floats as ℚ. -/
structure MaterialPreset where
  name : String
  nozzle_temp : ℤ
  bed_temp : ℤ
  fan_speed : ℤ
  fan_speed_min : ℤ
  fan_speed_max : ℤ
  flow_ratio : ℚ
  density : ℚ
  cost : ℚ
  retraction_length : ℚ
  retraction_speed : ℤ
  default_pressure_advance : ℚ
  deriving DecidableEq, Repr

/-- The catalog entry `MATERIALS["pla"]`. -/
def plaPreset : MaterialPreset :=
  { name := "PLA K1C", nozzle_temp := 210, bed_temp := 60, fan_speed := 95,
    fan_speed_min := 80, fan_speed_max := 100, flow_ratio := 1.0,
    density := 1.24, cost := 20, retraction_length := 0.8,
    retraction_speed := 35, default_pressure_advance := 0.0 }

/-- The catalog entry `MATERIALS["petg"]`. -/
def petgPreset : MaterialPreset :=
  { name := "PETG K1C", nozzle_temp := 240, bed_temp := 80, fan_speed := 45,
    fan_speed_min := 30, fan_speed_max := 60, flow_ratio := 1.0,
    density := 1.27, cost := 25, retraction_length := 1.0,
    retraction_speed := 40, default_pressure_advance := 0.02 }

/-- The `MATERIALS` table. -/
def MATERIALS : List (String × MaterialPreset) :=
  [("pla", plaPreset), ("petg", petgPreset)]

/-- `clamp(value, min_value, max_value) = max(min_value, min(value, max_value))`. -/
def clamp (value min_value max_value : ℚ) : ℚ :=
  max min_value (min value max_value)

/-- Integer-valued clamp, `max lo (min v hi)` on ℤ; used to state what the
`int(clamp(...))` compositions in the source compute on all-integer data. -/
def clampZ (v lo hi : ℤ) : ℤ :=
  max lo (min v hi)

/-- Python `int()` on a float: truncation toward zero. -/
def pyInt (q : ℚ) : ℤ :=
  if 0 ≤ q then ⌊q⌋ else ⌈q⌉

/-- Substring test on char lists (`needle` occurs contiguously in the list). -/
def containsSub (needle : List Char) : List Char → Bool
  | [] => needle.isEmpty
  | c :: t => needle.isPrefixOf (c :: t) || containsSub needle t

/-- Python's `needle in hay` on strings: contiguous substring containment. -/
def pyIn (needle hay : String) : Bool :=
  containsSub needle.data hay.data

/-- Python `str.strip()` (whitespace removed from both ends). -/
def pyStrip (s : List Char) : List Char :=
  ((s.dropWhile Char.isWhitespace).reverse.dropWhile Char.isWhitespace).reverse

/-- Value of a nonempty all-ASCII-digit char list; `none` otherwise. -/
def digitsVal (cs : List Char) : Option ℕ :=
  if cs = [] then none
  else if cs.all Char.isDigit then
    some (cs.foldl (fun acc c => acc * 10 + (c.toNat - '0'.toNat)) 0)
  else none

/-- Python `int(str)`: strip whitespace, optional sign, decimal digits.
(Underscore digit grouping and non-ASCII digits, which CPython also accepts,
are not modelled; no claim depends on them.) `none` models `ValueError`. -/
def pyStrToInt (s : List Char) : Option ℤ :=
  match pyStrip s with
  | '-' :: rest => (digitsVal rest).map (fun n => -(n : ℤ))
  | '+' :: rest => (digitsVal rest).map (fun n => (n : ℤ))
  | t => (digitsVal t).map (fun n => (n : ℤ))

/-- `re.split(r"[-–]", ...)`: split on each hyphen or en-dash character. -/
def splitDashes : List Char → List (List Char)
  | [] => [[]]
  | c :: rest =>
    if c == '-' || c == '–' then [] :: splitDashes rest
    else
      match splitDashes rest with
      | [] => [[c]]
      | g :: gs => (c :: g) :: gs

/-- The `try` body of `parse_temp_hint`; `none` models an uncaught-by-the-body
`ValueError` reaching the `except` clause. Mirrors lines 78-84 of the source:
the range branch fires only when an ASCII hyphen occurs in `raw`; every
non-blank dash-separated part is converted by `int`, so a single bad part
fails the whole comprehension; with fewer than two numbers control falls
through to `int(raw)`. -/
def tryTempHint (raw : String) : Option ℤ :=
  if pyIn "-" raw then
    let parts := (splitDashes raw.data).filter (fun p => !(pyStrip p).isEmpty)
    match parts.mapM (fun p => pyStrToInt (pyStrip p)) with
    | none => none
    | some nums =>
      match nums with
      | n0 :: n1 :: _ => some (pyInt (((n0 : ℚ) + (n1 : ℚ)) / 2))
      | _ => pyStrToInt raw.data
  else pyStrToInt raw.data

/-- `parse_temp_hint(raw, fallback)`: empty input or any `ValueError` in the
body yields the fallback. -/
def parse_temp_hint (raw : String) (fallback : ℤ) : ℤ :=
  if raw = "" then fallback
  else
    match tryTempHint raw with
    | some v => v
    | none => fallback

/-- `ai_generate_material_preset`: heuristic preset from user hints.
Integer literals appearing as `clamp` bounds in the source are written as
casts of ℤ literals. -/
def ai_generate_material_preset (name : String) (nozzle_hint bed_hint : ℤ)
    (fan_pref : String) : MaterialPreset :=
  let nozzle_temp : ℤ := pyInt (clamp (nozzle_hint : ℚ) ((160 : ℤ) : ℚ) ((290 : ℤ) : ℚ))
  let bed_temp : ℤ := pyInt (clamp (bed_hint : ℚ) ((30 : ℤ) : ℚ) ((120 : ℤ) : ℚ))
  let fp := fan_pref.toLower
  -- (fan_speed, fan_min, fan_max, retraction_len) per branch
  let fanRet : ℤ × ℤ × ℤ × ℚ :=
    if fp = "high" then (90, 70, 100, 0.8)
    else if fp = "low" then (40, 25, 60, 1.0)
    else (60, 40, 80, 0.9)
  let density0 : ℚ := 1.24
  let density1 : ℚ :=
    if pyIn "cf" name.toLower || pyIn "carbon" name.toLower then 1.3 else density0
  let density : ℚ :=
    if pyIn "pa" name.toLower || pyIn "nylon" name.toLower then max density1 1.14 else density1
  let cost : ℚ := 25
  { name := name
    nozzle_temp := nozzle_temp
    bed_temp := bed_temp
    fan_speed := fanRet.1
    fan_speed_min := fanRet.2.1
    fan_speed_max := fanRet.2.2.1
    flow_ratio := 1.0
    density := density
    cost := cost
    retraction_length := fanRet.2.2.2
    retraction_speed := 38
    default_pressure_advance := if fp = "medium" ∨ fp = "low" then 0.02 else 0.0 }

/-- The JSON object the LLM may return: each expected key either absent or
bound to a number (the code crashes on non-numeric values before any claim
applies, and the spec's malformed/extreme test feeds numbers). -/
structure LLMObj where
  nozzle_temp : Option ℚ
  bed_temp : Option ℚ
  fan_speed : Option ℚ
  fan_speed_min : Option ℚ
  fan_speed_max : Option ℚ
  flow_ratio : Option ℚ
  retraction_length : Option ℚ
  retraction_speed : Option ℚ
  pressure_advance : Option ℚ
  deriving DecidableEq, Repr

/-- Outcome of `json.loads` on the reconstructed response text: a dict
(`obj`) or some other JSON value (list, number, string, ...). -/
inductive PyJson where
  | obj (o : LLMObj)
  | nonObject
  deriving DecidableEq, Repr

/-- The failures `ollama_generate_material` can produce: the explicit
`RuntimeError` (the spec's `GenerationError`), or the uncaught
`AttributeError` from calling `.get` on a non-dict `json.loads` result. -/
inductive PyError where
  | runtimeError (msg : String)
  | attributeError
  deriving DecidableEq, Repr

/-- Straight-line body of `ollama_generate_material` after a successful
`json.loads` produced the dict `d` (source lines 175-209): read each field
with a default, clamp into the safe envelope, truncate the integer fields. -/
def ollama_build (name : String) (nozzle_hint bed_hint : ℤ) (d : LLMObj) :
    MaterialPreset :=
  let nozzle_temp : ℤ :=
    pyInt (clamp (d.nozzle_temp.getD (nozzle_hint : ℚ)) ((160 : ℤ) : ℚ) ((290 : ℤ) : ℚ))
  let bed_temp : ℤ :=
    pyInt (clamp (d.bed_temp.getD (bed_hint : ℚ)) ((30 : ℤ) : ℚ) ((120 : ℤ) : ℚ))
  let fan_speed : ℚ := clamp (d.fan_speed.getD 60) ((0 : ℤ) : ℚ) ((100 : ℤ) : ℚ)
  let fan_min : ℚ :=
    clamp (d.fan_speed_min.getD (max 0 (fan_speed - 20))) ((0 : ℤ) : ℚ) ((100 : ℤ) : ℚ)
  let fan_max : ℚ :=
    clamp (d.fan_speed_max.getD (max fan_speed 60)) ((0 : ℤ) : ℚ) ((100 : ℤ) : ℚ)
  let flow_ratio : ℚ := clamp (d.flow_ratio.getD 1.0) 0.9 1.1
  let retraction_length : ℚ := clamp (d.retraction_length.getD 0.9) 0.4 1.8
  let retraction_speed : ℚ := clamp (d.retraction_speed.getD 38) ((15 : ℤ) : ℚ) ((55 : ℤ) : ℚ)
  let pressure_advance : ℚ := clamp (d.pressure_advance.getD 0.02) 0.0 0.2
  let density : ℚ :=
    if pyIn "cf" name.toLower || pyIn "carbon" name.toLower then 1.3 else 1.24
  let cost : ℚ := 25
  { name := name
    nozzle_temp := nozzle_temp
    bed_temp := bed_temp
    fan_speed := pyInt fan_speed
    fan_speed_min := pyInt fan_min
    fan_speed_max := pyInt fan_max
    flow_ratio := flow_ratio
    density := density
    cost := cost
    retraction_length := retraction_length
    retraction_speed := pyInt retraction_speed
    default_pressure_advance := pressure_advance }

/-- `ollama_generate_material`: `raw` is the response text reconstructed by
`call_ollama` (transport is out of scope per the spec) and `parsed` the
outcome of `json.loads(raw)` — `none` models `json.JSONDecodeError`, which
the source converts to `RuntimeError(f"LLM did not return valid JSON: {raw}")`;
a non-dict JSON value reaches `data.get` and raises `AttributeError`. -/
def ollama_generate_material (name : String) (nozzle_hint bed_hint : ℤ)
    (fan_pref : String) (raw : String) (parsed : Option PyJson) :
    Except PyError MaterialPreset :=
  match parsed with
  | none => .error (.runtimeError ("LLM did not return valid JSON: " ++ raw))
  | some .nonObject => .error .attributeError
  | some (.obj d) => .ok (ollama_build name nozzle_hint bed_hint d)

/-- The record returned by `ai_tune_filament` (a dict in the source). -/
structure TunedFilament where
  nozzle_temp : ℤ
  bed_temp : ℤ
  fan_speed : ℤ
  fan_speed_min : ℤ
  fan_speed_max : ℤ
  flow_ratio : ℚ
  pressure_advance : ℚ
  deriving DecidableEq, Repr

/-- Python `round(x, 3)` under exact-rational idealization: round
`x * 1000` to the nearest integer, ties to even, divide by 1000. -/
def pyRound3 (x : ℚ) : ℚ :=
  let y := x * 1000
  let f := ⌊y⌋
  let r : ℤ :=
    if y - f < 1 / 2 then f
    else if 1 / 2 < y - f then f + 1
    else if f % 2 = 0 then f else f + 1
  (r : ℚ) / 1000

/-- `ai_tune_filament(material, suggested_temp)` (source lines 212-247). -/
def ai_tune_filament (material : MaterialPreset) (suggested_temp : ℤ) :
    TunedFilament :=
  let base := material
  let nozzle_temp : ℤ :=
    pyInt (clamp (suggested_temp : ℚ) ((base.nozzle_temp - 10 : ℤ) : ℚ)
      ((base.nozzle_temp + 15 : ℤ) : ℚ))
  let bed_temp : ℤ :=
    if nozzle_temp > base.nozzle_temp + 5
    then min (base.bed_temp + 5) (base.bed_temp + 10)
    else base.bed_temp
  -- (fan_speed, fan_min, fan_max); the two branches of the name check
  let fans : ℤ × ℤ × ℤ :=
    if pyIn "PLA" base.name then
      (pyInt (clamp ((base.fan_speed - (nozzle_temp - base.nozzle_temp) * 2 : ℤ) : ℚ)
          ((80 : ℤ) : ℚ) ((100 : ℤ) : ℚ)),
       pyInt (clamp ((base.fan_speed_min - (nozzle_temp - base.nozzle_temp) : ℤ) : ℚ)
          ((70 : ℤ) : ℚ) ((100 : ℤ) : ℚ)),
       100)
    else
      (pyInt (clamp ((base.fan_speed - (nozzle_temp - base.nozzle_temp) : ℤ) : ℚ)
          ((25 : ℤ) : ℚ) ((65 : ℤ) : ℚ)),
       pyInt (clamp ((base.fan_speed_min : ℚ) - ((nozzle_temp - base.nozzle_temp : ℤ) : ℚ) * 0.5)
          ((20 : ℤ) : ℚ) ((60 : ℤ) : ℚ)),
       pyInt (clamp ((base.fan_speed_max : ℚ) - ((nozzle_temp - base.nozzle_temp : ℤ) : ℚ) * 0.5)
          ((40 : ℤ) : ℚ) ((80 : ℤ) : ℚ)))
  let delta : ℤ := nozzle_temp - base.nozzle_temp
  let flow_ratio : ℚ := clamp (base.flow_ratio - (delta : ℚ) * 0.002) 0.96 1.04
  { nozzle_temp := nozzle_temp
    bed_temp := bed_temp
    fan_speed := fans.1
    fan_speed_min := fans.2.1
    fan_speed_max := fans.2.2
    flow_ratio := pyRound3 flow_ratio
    pressure_advance := material.default_pressure_advance }

/-- `default_volumetric_speed(material_name)`. -/
def default_volumetric_speed (material_name : String) : ℚ :=
  if pyIn "petg" material_name.toLower then 18.0 else 20.0

/-- The serialized OrcaSlicer profile. The target schema stores every scalar
as a one-element list of its `str()` rendering; the numeric fields are kept
as one-element lists of their values here (Python float/int `str()` rendering
is not modelled — no claim depends on the rendered digits), while
`enable_pressure_advance`, whose element is the literal string `"1"` or
`"0"` in the source, keeps its strings. -/
structure FilamentProfile where
  name : String
  filament_settings_id : String
  inherits : String
  nozzle_temperature : List ℤ
  hot_plate_temp : List ℤ
  additional_cooling_fan_speed : List ℤ
  pressure_advance : List ℚ
  enable_pressure_advance : List String
  version : String
  deriving DecidableEq, Repr

/-- `build_filament_profile(tuned, pressure_advance, profile_name)`
(source lines 257-279). -/
def build_filament_profile (tuned : TunedFilament) (pressure_advance : ℚ)
    (profile_name : String) : FilamentProfile :=
  { name := profile_name
    filament_settings_id := profile_name
    inherits := "Creality Generic PLA"
    nozzle_temperature := [tuned.nozzle_temp]
    hot_plate_temp := [tuned.bed_temp]
    additional_cooling_fan_speed := [tuned.fan_speed_max]
    pressure_advance := [pressure_advance]
    enable_pressure_advance := [if pressure_advance > 0 then "1" else "0"]
    version := "1.9.0.2" }

example : parse_temp_hint "190-230" 0 = 210 := by with_unfolding_all decide
example : parse_temp_hint "" 7 = 7 := by with_unfolding_all decide
example : parse_temp_hint "abc" 99 = 99 := by with_unfolding_all decide
example : parse_temp_hint "190–230" 0 = 0 := by with_unfolding_all decide
example : parse_temp_hint "190-230-x" 0 = 0 := by with_unfolding_all decide
example : parse_temp_hint "205" 0 = 205 := by with_unfolding_all decide
example : parse_temp_hint "-5" 0 = -5 := by with_unfolding_all decide
example : (ai_generate_material_preset "X" 210 60 "auto").default_pressure_advance = 0 := by
  with_unfolding_all decide
example : (ai_generate_material_preset "X" 210 60 "LOW").default_pressure_advance = 0.02 := by
  with_unfolding_all decide
example : (ai_tune_filament plaPreset 225).nozzle_temp = 225 := by
  with_unfolding_all decide
example : (ai_tune_filament plaPreset 225).fan_speed = 80 := by
  with_unfolding_all decide
example : (ai_tune_filament plaPreset 225).bed_temp = 65 := by
  with_unfolding_all decide

/-! Helper lemmas about `clamp` and `pyInt`. -/

theorem le_clamp (value min_value max_value : ℚ) :
    min_value ≤ clamp value min_value max_value :=
  le_max_left _ _

theorem clamp_le (value : ℚ) {min_value max_value : ℚ} (h : min_value ≤ max_value) :
    clamp value min_value max_value ≤ max_value :=
  max_le h (min_le_right _ _)

theorem pyInt_intCast (n : ℤ) : pyInt (n : ℚ) = n := by
  unfold pyInt
  split
  · exact Int.floor_intCast n
  · exact Int.ceil_intCast n

theorem cast_clampZ (v lo hi : ℤ) :
    clamp (v : ℚ) (lo : ℚ) (hi : ℚ) = ((clampZ v lo hi : ℤ) : ℚ) := by
  simp only [clamp, clampZ]
  push_cast
  rfl

theorem pyInt_clamp_int (v lo hi : ℤ) :
    pyInt (clamp (v : ℚ) (lo : ℚ) (hi : ℚ)) = clampZ v lo hi := by
  rw [cast_clampZ, pyInt_intCast]

theorem pyInt_bounds {lo hi : ℤ} {q : ℚ} (h0 : 0 ≤ lo)
    (h1 : (lo : ℚ) ≤ q) (h2 : q ≤ (hi : ℚ)) :
    lo ≤ pyInt q ∧ pyInt q ≤ hi := by
  have hq : (0 : ℚ) ≤ q := le_trans (by exact_mod_cast h0) h1
  unfold pyInt
  rw [if_pos hq]
  refine ⟨Int.le_floor.mpr h1, ?_⟩
  have hfl : ((⌊q⌋ : ℤ) : ℚ) ≤ (hi : ℚ) := le_trans (Int.floor_le q) h2
  exact_mod_cast hfl

theorem pyInt_clamp_bounds (x : ℚ) {lo hi : ℤ} (h0 : 0 ≤ lo)
    (h : (lo : ℚ) ≤ (hi : ℚ)) :
    lo ≤ pyInt (clamp x (lo : ℚ) (hi : ℚ)) ∧ pyInt (clamp x (lo : ℚ) (hi : ℚ)) ≤ hi :=
  pyInt_bounds h0 (le_clamp x _ _) (clamp_le x h)

/-- Claim C9: for bounds `lo ≤ hi`, `clamp` lands in `[lo, hi]` and is
idempotent. -/
theorem clamp_bounds_idempotent (v lo hi : ℚ) (h : lo ≤ hi) :
    (lo ≤ clamp v lo hi ∧ clamp v lo hi ≤ hi) ∧
    clamp (clamp v lo hi) lo hi = clamp v lo hi := by
  refine ⟨⟨le_clamp v lo hi, clamp_le v h⟩, ?_⟩
  unfold clamp
  rw [min_eq_left (max_le h (min_le_right v hi)), ← max_assoc, max_self]

/-- Witness for C9 at `v = 5`, `lo = 0`, `hi = 3`. -/
theorem clamp_bounds_idempotent_witness :
    ((0 : ℚ) ≤ clamp 5 0 3 ∧ clamp 5 0 3 ≤ 3) ∧
    clamp (clamp 5 0 3) 0 3 = clamp 5 0 3 :=
  clamp_bounds_idempotent 5 0 3 (by norm_num)

/-- Claim C10: with inverted bounds (`lo > hi`, the case the spec leaves
undefined) `clamp` returns the lower bound `lo`, whatever `v` is. -/
theorem clamp_inverted_bounds_lo (v lo hi : ℚ) (h : hi < lo) :
    clamp v lo hi = lo := by
  unfold clamp
  exact max_eq_left (le_trans (min_le_right v hi) (le_of_lt h))

/-- Witness for C10 at `v = 7`, `lo = 10`, `hi = 3`. -/
theorem clamp_inverted_bounds_lo_witness : clamp 7 10 3 = 10 :=
  clamp_inverted_bounds_lo 7 10 3 (by norm_num)

/-- Claim C8: the serialized `enable_pressure_advance` is `["1"]` exactly
when the effective pressure advance is strictly positive, `["0"]`
otherwise, including at the boundary value `0`. -/
theorem enable_pressure_advance_rule (tuned : TunedFilament)
    (pressure_advance : ℚ) (profile_name : String) :
    (build_filament_profile tuned pressure_advance profile_name).enable_pressure_advance
      = [if 0 < pressure_advance then "1" else "0"] ∧
    (build_filament_profile tuned 0 profile_name).enable_pressure_advance = ["0"] := by
  constructor
  · rfl
  · show [if (0 : ℚ) < 0 then "1" else "0"] = ["0"]
    rw [if_neg (lt_irrefl (0 : ℚ))]

/-- Claim C5: `parse_temp_hint` degrades to the fallback instead of
failing — empty input returns the fallback, `"abc"` with fallback 99
returns 99, and whenever the parsing body fails (modelled by
`tryTempHint _ = none`, the `ValueError` path) the fallback is returned.
The Lean embedding is a total function, matching the absence of an
escaping exception. -/
theorem parse_temp_hint_fallback_total :
    (∀ fallback : ℤ, parse_temp_hint "" fallback = fallback) ∧
    parse_temp_hint "abc" 99 = 99 ∧
    (∀ (raw : String) (fallback : ℤ), tryTempHint raw = none →
      parse_temp_hint raw fallback = fallback) := by
  refine ⟨fun _ => rfl, by with_unfolding_all decide, ?_⟩
  intro raw fallback h
  unfold parse_temp_hint
  by_cases hr : raw = ""
  · rw [if_pos hr]
  · rw [if_neg hr, h]

/-- Witness for C5 at the malformed range `"7-"` and the empty string. -/
theorem parse_temp_hint_fallback_total_witness :
    tryTempHint "7-" = none ∧ parse_temp_hint "7-" 5 = 5 ∧ parse_temp_hint "" 7 = 7 :=
  ⟨by with_unfolding_all decide,
   parse_temp_hint_fallback_total.2.2 "7-" 5 (by with_unfolding_all decide),
   parse_temp_hint_fallback_total.1 7⟩

/-- Claim C6: tuning leaves `bed_temp` unchanged unless the tuned nozzle
temperature exceeds `base.nozzle_temp + 5`, in which case it is exactly
`base.bed_temp + 5` (the `min(base+5, base+10)` in the source collapses
to `+5`). -/
theorem ai_tune_filament_bed_temp_rule (m : MaterialPreset) (t : ℤ) :
    (ai_tune_filament m t).bed_temp =
      if m.nozzle_temp + 5 < (ai_tune_filament m t).nozzle_temp
      then m.bed_temp + 5 else m.bed_temp := by
  simp only [ai_tune_filament]
  rw [min_eq_left (by omega)]

/-- Claim C2: the tuned nozzle temperature is the requested temperature
clamped to `[base.nozzle_temp - 10, base.nozzle_temp + 15]` for every base
preset; and for any PLA-family preset whose base nozzle temperature is 210,
requesting 225 yields nozzle 225 and
`fan_speed = clamp(base.fan_speed - 30, 80, 100)`. -/
theorem ai_tune_filament_nozzle_clamp :
    (∀ (m : MaterialPreset) (t : ℤ),
      (ai_tune_filament m t).nozzle_temp
        = clampZ t (m.nozzle_temp - 10) (m.nozzle_temp + 15)) ∧
    (∀ m : MaterialPreset, pyIn "PLA" m.name = true → m.nozzle_temp = 210 →
      (ai_tune_filament m 225).nozzle_temp = 225 ∧
      (ai_tune_filament m 225).fan_speed = clampZ (m.fan_speed - 30) 80 100) := by
  have h1 : ∀ (m : MaterialPreset) (t : ℤ),
      (ai_tune_filament m t).nozzle_temp
        = clampZ t (m.nozzle_temp - 10) (m.nozzle_temp + 15) := by
    intro m t
    simp only [ai_tune_filament]
    exact pyInt_clamp_int t _ _
  refine ⟨h1, fun m hname hnoz => ⟨?_, ?_⟩⟩
  · rw [h1 m 225, hnoz]
    with_unfolding_all decide
  · simp only [ai_tune_filament, hname, if_true, hnoz]
    rw [pyInt_clamp_int 225 (210 - 10) (210 + 15)]
    have hv : clampZ 225 (210 - 10) (210 + 15) = 225 := by with_unfolding_all decide
    rw [hv, pyInt_clamp_int (m.fan_speed - (225 - 210) * 2) 80 100]
    norm_num

/-- Witness for C2 at the catalog PLA preset and requested temperature 225. -/
theorem ai_tune_filament_nozzle_clamp_witness :
    (ai_tune_filament plaPreset 225).nozzle_temp = 225 ∧
    (ai_tune_filament plaPreset 225).fan_speed = clampZ (plaPreset.fan_speed - 30) 80 100 :=
  ai_tune_filament_nozzle_clamp.2 plaPreset (by with_unfolding_all decide)
    (by with_unfolding_all decide)

/-- Counterexample to claim C3 as stated: the cooling preference `"auto"`
is not one of low/medium/high, so per the claim it would be treated as
`"medium"` and yield pressure advance 0.02; the code does give it the
medium fan settings (`fan_speed = 60`) but sets
`default_pressure_advance = 0.0`, not 0.02. -/
theorem pressure_advance_unrecognized_pref_counterexample :
    (ai_generate_material_preset "X" 210 60 "auto").fan_speed = 60 ∧
    (ai_generate_material_preset "X" 210 60 "auto").default_pressure_advance = 0.0 ∧
    (ai_generate_material_preset "X" 210 60 "auto").default_pressure_advance ≠ 0.02 := by
  with_unfolding_all decide

/-- Claim C3 as amended: `default_pressure_advance` is 0.02 exactly when
the lowercased cooling preference is literally `"medium"` or `"low"`, and
0.0 otherwise — so an unrecognized preference receives the medium fan
settings but pressure advance 0.0, not medium's 0.02. -/
theorem heuristic_pressure_advance_rule (name : String)
    (nozzle_hint bed_hint : ℤ) (fan_pref : String) :
    (ai_generate_material_preset name nozzle_hint bed_hint fan_pref).default_pressure_advance
      = if fan_pref.toLower = "medium" ∨ fan_pref.toLower = "low" then 0.02 else 0.0 := by
  simp only [ai_generate_material_preset]

/-- Counterexample to claim C4 as stated: an en-dash-only range is NOT
interpreted as a range (the guard tests only for an ASCII hyphen), and a
non-numeric extra dash component poisons the whole parse; both return the
fallback 0 instead of the claimed midpoint 210. -/
theorem parse_temp_hint_range_counterexample :
    parse_temp_hint "190–230" 0 = 0 ∧ parse_temp_hint "190–230" 0 ≠ 210 ∧
    parse_temp_hint "190-230-x" 0 = 0 ∧ parse_temp_hint "190-230-x" 0 ≠ 210 := by
  with_unfolding_all decide

/-- Claim C4 as amended: for input containing an ASCII hyphen, when every
non-blank dash-separated (hyphen or en-dash) component parses as an
integer and there are at least two of them, the result is the truncated
midpoint of the first two. -/
theorem parse_temp_hint_range_midpoint :
    ∀ (raw : String) (fallback : ℤ) (n0 n1 : ℤ) (rest : List ℤ),
      pyIn "-" raw = true →
      ((splitDashes raw.data).filter (fun p => !(pyStrip p).isEmpty)).mapM
          (fun p => pyStrToInt (pyStrip p)) = some (n0 :: n1 :: rest) →
      parse_temp_hint raw fallback = pyInt (((n0 : ℚ) + (n1 : ℚ)) / 2) := by
  intro raw fallback n0 n1 rest hdash hnums
  have hne : raw ≠ "" := by
    intro h
    rw [h] at hdash
    exact absurd hdash (by with_unfolding_all decide)
  unfold parse_temp_hint
  rw [if_neg hne]
  unfold tryTempHint
  simp only [hdash, if_true, hnums]

/-- Witness for C4 (amended) at `"190-230"` with fallback 0: midpoint 210. -/
theorem parse_temp_hint_range_midpoint_witness :
    parse_temp_hint "190-230" 0 = 210 := by
  have h := parse_temp_hint_range_midpoint "190-230" 0 190 230 []
    (by with_unfolding_all decide) (by with_unfolding_all decide)
  rw [h]
  with_unfolding_all decide

/-- The range invariants of §3 of the spec that every generated preset is
claimed to satisfy (the relational `fan_speed_min ≤ fan_speed_max`
invariant is stated separately, and refuted, in C1's counterexample). -/
def presetInBounds (p : MaterialPreset) : Prop :=
  (160 ≤ p.nozzle_temp ∧ p.nozzle_temp ≤ 290) ∧
  (30 ≤ p.bed_temp ∧ p.bed_temp ≤ 120) ∧
  (0 ≤ p.fan_speed ∧ p.fan_speed ≤ 100) ∧
  (0 ≤ p.fan_speed_min ∧ p.fan_speed_min ≤ 100) ∧
  (0 ≤ p.fan_speed_max ∧ p.fan_speed_max ≤ 100) ∧
  ((0.9 : ℚ) ≤ p.flow_ratio ∧ p.flow_ratio ≤ 1.1) ∧
  ((0.4 : ℚ) ≤ p.retraction_length ∧ p.retraction_length ≤ 1.8) ∧
  (15 ≤ p.retraction_speed ∧ p.retraction_speed ≤ 55) ∧
  ((0.0 : ℚ) ≤ p.default_pressure_advance ∧ p.default_pressure_advance ≤ 0.2)

/-- A service response supplying fan bounds in reversed order: each value
is individually within `[0,100]` and survives its clamp unchanged. -/
def llmMinMaxObj : LLMObj :=
  { nozzle_temp := none, bed_temp := none, fan_speed := none,
    fan_speed_min := some 90, fan_speed_max := some 10, flow_ratio := none,
    retraction_length := none, retraction_speed := none, pressure_advance := none }

/-- A synthetic malformed/extreme service response: out-of-range values in
both directions and missing fields. -/
def llmExtremeObj : LLMObj :=
  { nozzle_temp := some 9999, bed_temp := some (-40), fan_speed := some 250,
    fan_speed_min := none, fan_speed_max := some (-3), flow_ratio := some 2.5,
    retraction_length := none, retraction_speed := some 0, pressure_advance := some 1.7 }

/-- Counterexample to claim C1 as stated: when the service supplies
`fan_speed_min = 90` and `fan_speed_max = 10`, each value passes its own
`[0,100]` clamp untouched, and the produced preset violates the
data-model invariant `fan_speed_min ≤ fan_speed_max`. -/
theorem ollama_fan_bounds_counterexample :
    ollama_generate_material "X" 210 60 "medium" "x" (some (.obj llmMinMaxObj))
      = .ok (ollama_build "X" 210 60 llmMinMaxObj) ∧
    (ollama_build "X" 210 60 llmMinMaxObj).fan_speed_min = 90 ∧
    (ollama_build "X" 210 60 llmMinMaxObj).fan_speed_max = 10 ∧
    ¬ (ollama_build "X" 210 60 llmMinMaxObj).fan_speed_min
        ≤ (ollama_build "X" 210 60 llmMinMaxObj).fan_speed_max :=
  ⟨rfl, by with_unfolding_all decide, by with_unfolding_all decide,
    by with_unfolding_all decide⟩

/-- Claim C1 as amended: for every JSON object the service returns
(out-of-range or missing numeric fields included), the preset built by the
LLM path satisfies all the range bounds of the heuristic path —
nozzle in [160,290], bed in [30,120], the three fan fields each in
[0,100], flow_ratio in [0.9,1.1], retraction_length in [0.4,1.8],
retraction_speed in [15,55], pressure advance in [0,0.2]; the relational
invariant `fan_speed_min ≤ fan_speed_max` is however not guaranteed. -/
theorem ollama_generate_material_in_bounds (name : String)
    (nozzle_hint bed_hint : ℤ) (fan_pref raw : String) (d : LLMObj)
    (p : MaterialPreset)
    (h : ollama_generate_material name nozzle_hint bed_hint fan_pref raw
        (some (.obj d)) = .ok p) :
    presetInBounds p := by
  have hp : ollama_build name nozzle_hint bed_hint d = p := by
    simpa only [ollama_generate_material, Except.ok.injEq] using h
  rw [← hp]
  simp only [ollama_build, presetInBounds]
  refine ⟨pyInt_clamp_bounds _ (by norm_num) (by norm_num),
    pyInt_clamp_bounds _ (by norm_num) (by norm_num),
    pyInt_clamp_bounds _ (by norm_num) (by norm_num),
    pyInt_clamp_bounds _ (by norm_num) (by norm_num),
    pyInt_clamp_bounds _ (by norm_num) (by norm_num),
    ⟨le_clamp _ _ _, clamp_le _ (by norm_num)⟩,
    ⟨le_clamp _ _ _, clamp_le _ (by norm_num)⟩,
    pyInt_clamp_bounds _ (by norm_num) (by norm_num),
    ⟨le_clamp _ _ _, clamp_le _ (by norm_num)⟩⟩

/-- Witness for C1 (amended) on the synthetic extreme response. -/
theorem ollama_generate_material_in_bounds_witness :
    presetInBounds (ollama_build "PLA-CF" 210 60 llmExtremeObj) :=
  ollama_generate_material_in_bounds "PLA-CF" 210 60 "medium" "x" llmExtremeObj
    (ollama_build "PLA-CF" 210 60 llmExtremeObj) rfl

/-- Counterexample to claim C7 as stated: the text `"5"` does parse as
JSON (so per the claim the generator should succeed, and per the claim's
other half anything unparseable *as an object* should give the
GenerationError), but the code only catches `json.JSONDecodeError`; the
non-dict value reaches `data.get` and the call dies with an uncaught
`AttributeError` — neither a `GenerationError` nor a returned preset. -/
theorem ollama_nonobject_json_counterexample :
    ollama_generate_material "X" 210 60 "medium" "5" (some PyJson.nonObject)
      = .error .attributeError ∧
    (Except.error PyError.attributeError : Except PyError MaterialPreset)
      ≠ .error (.runtimeError "LLM did not return valid JSON: 5") :=
  ⟨rfl, fun h => by injection h with h1; exact nomatch h1⟩

/-- Claim C7 as amended: the generator fails with the `GenerationError`
class failure (`RuntimeError` carrying the raw text) exactly when the
reconstructed text is not valid JSON at all; when it parses as a JSON
object the generator returns a preset; and when it parses as JSON that is
not an object the generator fails with an uncaught `AttributeError`
instead of a `GenerationError`. -/
theorem ollama_generation_error_iff (name : String) (nozzle_hint bed_hint : ℤ)
    (fan_pref raw : String) (parsed : Option PyJson) :
    ((∃ msg, ollama_generate_material name nozzle_hint bed_hint fan_pref raw parsed
        = .error (.runtimeError msg)) ↔ parsed = none) ∧
    (parsed = none →
      ollama_generate_material name nozzle_hint bed_hint fan_pref raw parsed
        = .error (.runtimeError ("LLM did not return valid JSON: " ++ raw))) ∧
    (∀ d, parsed = some (.obj d) →
      ollama_generate_material name nozzle_hint bed_hint fan_pref raw parsed
        = .ok (ollama_build name nozzle_hint bed_hint d)) ∧
    (parsed = some .nonObject →
      ollama_generate_material name nozzle_hint bed_hint fan_pref raw parsed
        = .error .attributeError) := by
  cases parsed with
  | none =>
    refine ⟨⟨fun _ => rfl, ?_⟩, fun _ => rfl, ?_, ?_⟩
    · intro _
      exact ⟨"LLM did not return valid JSON: " ++ raw, rfl⟩
    · intro d h
      simp at h
    · intro h
      simp at h
  | some pj =>
    cases pj with
    | obj d =>
      refine ⟨⟨?_, ?_⟩, ?_, ?_, ?_⟩
      · rintro ⟨msg, h⟩
        simp [ollama_generate_material] at h
      · intro h
        simp at h
      · intro h
        simp at h
      · intro d' h
        simp only [Option.some.injEq, PyJson.obj.injEq] at h
        rw [← h]
        rfl
      · intro h
        simp at h
    | nonObject =>
      refine ⟨⟨?_, ?_⟩, ?_, ?_, fun _ => rfl⟩
      · rintro ⟨msg, h⟩
        simp [ollama_generate_material] at h
      · intro h
        simp at h
      · intro h
        simp at h
      · intro d h
        simp at h

/-- Witness for C7 (amended) on invalid-JSON text `"oops"`. -/
theorem ollama_generation_error_iff_witness :
    ollama_generate_material "X" 210 60 "medium" "oops" none
      = .error (.runtimeError ("LLM did not return valid JSON: " ++ "oops")) :=
  (ollama_generation_error_iff "X" 210 60 "medium" "oops" none).2.1 rfl
